import Mathlib

/-
  A shallow embedding of the SmallWM event-dispatch core:
  the XModel interaction state (x-model.cpp) and the XEvents
  dispatcher (x-events.cpp), with theorems checking the stated
  properties of the design against these definitions.
-/

namespace SmallWM

/-- An X window id. In Xlib, None is the zero resource id. -/
abbrev Window := Nat

/-- The Xlib None sentinel (resource id 0). -/
def NoneWin : Window := 0

/-! ## XModel: move/resize session and icon lookup tables (x-model.cpp) -/

/-- MoveResizeState from x-model.h. -/
inductive MoveResizeState
  | MR_MOVE
  | MR_RESIZE
  | MR_INVALID
  deriving DecidableEq, Repr

/-- The MoveResize record: the client being manipulated, the placeholder
window, and whether the session is a move or a resize. -/
structure MoveResize where
  client : Window
  placeholder : Window
  state : MoveResizeState
  deriving DecidableEq, Repr

/-- An Icon as far as XModel sees it: the client window it hides and the
icon proxy window which is shown. -/
structure Icon where
  client : Window
  icon : Window
  deriving DecidableEq, Repr

/-- The XModel state: the two icon lookup tables (std::map, with absent
keys reading as the null sentinel, here none) and the optional move/resize
session (the m_moveresize pointer, null = none). -/
structure XModel where
  clients_to_icons : Window → Option Icon
  icon_windows_to_icons : Window → Option Icon
  moveresize : Option MoveResize

/-- The XModel at startup: empty tables, no session. -/
def XModel.initial : XModel :=
  { clients_to_icons := fun _ => none
    icon_windows_to_icons := fun _ => none
    moveresize := none }

/-- std::map assignment m[k] = v: the key now reads v, others unchanged. -/
def mapInsert (k : Window) (v : Icon) (f : Window → Option Icon) :
    Window → Option Icon :=
  fun q => if q = k then some v else f q

/-- std::map erase(k): the key now reads the null sentinel, others unchanged. -/
def mapErase (k : Window) (f : Window → Option Icon) :
    Window → Option Icon :=
  fun q => if q = k then none else f q

/-- XModel::register_icon: store the icon in both tables, keyed by its
client and by its icon window. -/
def register_icon (m : XModel) (icon : Icon) : XModel :=
  { m with
    clients_to_icons := mapInsert icon.client icon m.clients_to_icons
    icon_windows_to_icons := mapInsert icon.icon icon m.icon_windows_to_icons }

/-- XModel::unregister_icon: erase the icon key from both tables. -/
def unregister_icon (m : XModel) (icon : Icon) : XModel :=
  { m with
    clients_to_icons := mapErase icon.client m.clients_to_icons
    icon_windows_to_icons := mapErase icon.icon m.icon_windows_to_icons }

/-- XModel::find_icon_from_client. An absent key reads as the null
pointer sentinel, none here. -/
def find_icon_from_client (m : XModel) (client : Window) : Option Icon :=
  m.clients_to_icons client

/-- XModel::find_icon_from_icon_window. -/
def find_icon_from_icon_window (m : XModel) (icon_win : Window) : Option Icon :=
  m.icon_windows_to_icons icon_win

/-- XModel::enter_move: a no-op when a session already exists, else a new
MR_MOVE session. -/
def enter_move (m : XModel) (client placeholder : Window) : XModel :=
  if m.moveresize.isSome then m
  else { m with moveresize := some ⟨client, placeholder, MoveResizeState.MR_MOVE⟩ }

/-- XModel::enter_resize: a no-op when a session already exists, else a new
MR_RESIZE session. -/
def enter_resize (m : XModel) (client placeholder : Window) : XModel :=
  if m.moveresize.isSome then m
  else { m with moveresize := some ⟨client, placeholder, MoveResizeState.MR_RESIZE⟩ }

/-- XModel::get_move_resize_placeholder: None when no session. -/
def get_move_resize_placeholder (m : XModel) : Window :=
  match m.moveresize with
  | none => NoneWin
  | some mr => mr.placeholder

/-- XModel::get_move_resize_client: None when no session. -/
def get_move_resize_client (m : XModel) : Window :=
  match m.moveresize with
  | none => NoneWin
  | some mr => mr.client

/-- XModel::get_move_resize_state: MR_INVALID when no session. -/
def get_move_resize_state (m : XModel) : MoveResizeState :=
  match m.moveresize with
  | none => MoveResizeState.MR_INVALID
  | some mr => mr.state

/-- XModel::exit_move_resize: delete the session if there is one. -/
def exit_move_resize (m : XModel) : XModel :=
  if m.moveresize.isSome then { m with moveresize := none } else m

/-! ## Sequences of icon registrations (for the lookup-table invariant) -/

/-- One call on the icon tables. -/
inductive IconOp
  | reg (i : Icon)
  | unreg (i : Icon)
  deriving DecidableEq, Repr

/-- Apply one register_icon / unregister_icon call. -/
def applyIconOp (m : XModel) : IconOp → XModel
  | IconOp.reg i => register_icon m i
  | IconOp.unreg i => unregister_icon m i

/-- Run a sequence of icon-table calls. -/
def runIconOps (m : XModel) : List IconOp → XModel
  | [] => m
  | op :: rest => runIconOps (applyIconOp m op) rest

/-- Well-formed usage of the icon tables, as the dispatcher exercises them:
each registered icon brings a client key and an icon-window key that are not
currently in use, and only icons currently registered under both their keys
are unregistered. -/
def wfIconOps (m : XModel) : List IconOp → Bool
  | [] => true
  | IconOp.reg i :: rest =>
      (m.clients_to_icons i.client == none) &&
      (m.icon_windows_to_icons i.icon == none) &&
      wfIconOps (register_icon m i) rest
  | IconOp.unreg i :: rest =>
      (m.clients_to_icons i.client == some i) &&
      (m.icon_windows_to_icons i.icon == some i) &&
      wfIconOps (unregister_icon m i) rest

/-- Every icon held by either table is reachable through both tables, each
under its own key. -/
def icons_both_or_neither (m : XModel) : Prop :=
  (∀ c i, m.clients_to_icons c = some i →
      c = i.client ∧ m.icon_windows_to_icons i.icon = some i) ∧
  (∀ w i, m.icon_windows_to_icons w = some i →
      w = i.icon ∧ m.clients_to_icons i.client = some i)

theorem register_icon_preserves (m : XModel) (i : Icon)
    (hc : m.clients_to_icons i.client = none)
    (hw : m.icon_windows_to_icons i.icon = none)
    (hm : icons_both_or_neither m) :
    icons_both_or_neither (register_icon m i) := by
  obtain ⟨h1, h2⟩ := hm
  constructor
  · intro c j hj
    simp only [register_icon, mapInsert] at hj ⊢
    by_cases hck : c = i.client
    · subst hck
      simp only [if_pos rfl] at hj
      cases hj
      simp
    · simp only [if_neg hck] at hj
      obtain ⟨hcj, hwj⟩ := h1 c j hj
      refine ⟨hcj, ?_⟩
      have hne : j.icon ≠ i.icon := by
        intro he
        rw [he] at hwj
        rw [hw] at hwj
        exact Option.noConfusion hwj
      simp [if_neg hne, hwj]
  · intro w j hj
    simp only [register_icon, mapInsert] at hj ⊢
    by_cases hwk : w = i.icon
    · subst hwk
      simp only [if_pos rfl] at hj
      cases hj
      simp
    · simp only [if_neg hwk] at hj
      obtain ⟨hwj, hcj⟩ := h2 w j hj
      refine ⟨hwj, ?_⟩
      have hne : j.client ≠ i.client := by
        intro he
        rw [he] at hcj
        rw [hc] at hcj
        exact Option.noConfusion hcj
      simp [if_neg hne, hcj]

theorem unregister_icon_preserves (m : XModel) (i : Icon)
    (hc : m.clients_to_icons i.client = some i)
    (hw : m.icon_windows_to_icons i.icon = some i)
    (hm : icons_both_or_neither m) :
    icons_both_or_neither (unregister_icon m i) := by
  obtain ⟨h1, h2⟩ := hm
  constructor
  · intro c j hj
    simp only [unregister_icon, mapErase] at hj ⊢
    by_cases hck : c = i.client
    · simp [if_pos hck] at hj
    · simp only [if_neg hck] at hj
      obtain ⟨hcj, hwj⟩ := h1 c j hj
      refine ⟨hcj, ?_⟩
      have hne : j.icon ≠ i.icon := by
        intro he
        rw [he] at hwj
        rw [hw] at hwj
        cases hwj
        exact hck (by rw [hcj])
      simp [if_neg hne, hwj]
  · intro w j hj
    simp only [unregister_icon, mapErase] at hj ⊢
    by_cases hwk : w = i.icon
    · simp [if_pos hwk] at hj
    · simp only [if_neg hwk] at hj
      obtain ⟨hwj, hcj⟩ := h2 w j hj
      refine ⟨hwj, ?_⟩
      have hne : j.client ≠ i.client := by
        intro he
        rw [he] at hcj
        rw [hc] at hcj
        cases hcj
        exact hwk (by rw [hwj])
      simp [if_neg hne, hcj]

theorem wf_run_preserves (ops : List IconOp) (m : XModel)
    (hm : icons_both_or_neither m) (hwf : wfIconOps m ops = true) :
    icons_both_or_neither (runIconOps m ops) := by
  induction ops generalizing m with
  | nil => exact hm
  | cons op rest ih =>
    cases op with
    | reg i =>
      simp only [wfIconOps, Bool.and_eq_true, beq_iff_eq] at hwf
      obtain ⟨⟨hc, hw⟩, hrest⟩ := hwf
      exact ih (register_icon m i) (register_icon_preserves m i hc hw hm) hrest
    | unreg i =>
      simp only [wfIconOps, Bool.and_eq_true, beq_iff_eq] at hwf
      obtain ⟨⟨hc, hw⟩, hrest⟩ := hwf
      exact ih (unregister_icon m i) (unregister_icon_preserves m i hc hw hm) hrest

theorem initial_both_or_neither : icons_both_or_neither XModel.initial := by
  constructor
  · intro c i h
    exact Option.noConfusion h
  · intro w i h
    exact Option.noConfusion h

/-- A model with a move session already active, client 7 on placeholder 99. -/
def sessionModel : XModel :=
  { XModel.initial with
    moveresize := some ⟨7, 99, MoveResizeState.MR_MOVE⟩ }

/-- Claim C1: while a move/resize session is active, enter_move and
enter_resize are no-ops: all three session getters afterwards return exactly
the values of the original session, so at most one session ever exists. -/
theorem second_enter_move_resize_noop (m : XModel) (c p c2 p2 : Window)
    (h : m.moveresize.isSome = true) :
    get_move_resize_client (enter_move m c p) = get_move_resize_client m ∧
    get_move_resize_placeholder (enter_move m c p) = get_move_resize_placeholder m ∧
    get_move_resize_state (enter_move m c p) = get_move_resize_state m ∧
    get_move_resize_client (enter_resize m c2 p2) = get_move_resize_client m ∧
    get_move_resize_placeholder (enter_resize m c2 p2) = get_move_resize_placeholder m ∧
    get_move_resize_state (enter_resize m c2 p2) = get_move_resize_state m := by
  simp [enter_move, enter_resize, h]

/-- Concrete run of claim C1: a second enter_resize after enter_move leaves
the session on client 7, placeholder 99, state MR_MOVE. -/
theorem second_enter_move_resize_noop_witness :
    sessionModel.moveresize.isSome = true ∧
    (get_move_resize_client (enter_move sessionModel 8 100) =
        get_move_resize_client sessionModel ∧
      get_move_resize_placeholder (enter_move sessionModel 8 100) =
        get_move_resize_placeholder sessionModel ∧
      get_move_resize_state (enter_move sessionModel 8 100) =
        get_move_resize_state sessionModel ∧
      get_move_resize_client (enter_resize sessionModel 8 100) =
        get_move_resize_client sessionModel ∧
      get_move_resize_placeholder (enter_resize sessionModel 8 100) =
        get_move_resize_placeholder sessionModel ∧
      get_move_resize_state (enter_resize sessionModel 8 100) =
        get_move_resize_state sessionModel) :=
  ⟨rfl, second_enter_move_resize_noop sessionModel 8 100 8 100 rfl⟩

/-- The state after registering two icons which share the client key 1. -/
def collidingIconsModel : XModel :=
  runIconOps XModel.initial
    [IconOp.reg ⟨1, 10⟩, IconOp.reg ⟨1, 20⟩]

/-- Claim C2, counterexample: after register_icon ⟨1, 10⟩ then
register_icon ⟨1, 20⟩, the icon ⟨1, 10⟩ is still found from its icon window
10, but the lookup by its client key 1 now yields the other icon — a
reachable state in which an icon is found by exactly one of the two keys. -/
theorem icon_reachable_by_one_key :
    find_icon_from_icon_window collidingIconsModel 10 = some ⟨1, 10⟩ ∧
    find_icon_from_client collidingIconsModel 1 = some ⟨1, 20⟩ ∧
    (⟨1, 20⟩ : Icon) ≠ (⟨1, 10⟩ : Icon) := by
  refine ⟨rfl, rfl, by decide⟩

/-- Claim C2, amended: after register_icon(i), both lookups on the keys of i
return i, and after unregister_icon(i), both return the not-found sentinel;
and along every well-formed sequence of register_icon/unregister_icon calls
(fresh keys registered, only fully registered icons unregistered) every icon
held by the tables is reachable through both lookup tables under its own
keys, never through exactly one. -/
theorem register_unregister_bidirectional (i : Icon) (m : XModel)
    (ops : List IconOp)
    (hwf : wfIconOps XModel.initial ops = true) :
    (find_icon_from_client (register_icon m i) i.client = some i ∧
      find_icon_from_icon_window (register_icon m i) i.icon = some i) ∧
    (find_icon_from_client (unregister_icon m i) i.client = none ∧
      find_icon_from_icon_window (unregister_icon m i) i.icon = none) ∧
    icons_both_or_neither (runIconOps XModel.initial ops) := by
  refine ⟨⟨?_, ?_⟩, ⟨?_, ?_⟩, ?_⟩
  · simp [find_icon_from_client, register_icon, mapInsert]
  · simp [find_icon_from_icon_window, register_icon, mapInsert]
  · simp [find_icon_from_client, unregister_icon, mapErase]
  · simp [find_icon_from_icon_window, unregister_icon, mapErase]
  · exact wf_run_preserves ops XModel.initial initial_both_or_neither hwf

/-- Concrete run of the amended claim C2 on the sequence which registers
⟨1, 10⟩, unregisters it, and registers ⟨2, 20⟩. -/
theorem register_unregister_bidirectional_witness :
    wfIconOps XModel.initial
      [IconOp.reg ⟨1, 10⟩, IconOp.unreg ⟨1, 10⟩, IconOp.reg ⟨2, 20⟩] = true ∧
    ((find_icon_from_client (register_icon XModel.initial ⟨3, 30⟩) 3 = some ⟨3, 30⟩ ∧
        find_icon_from_icon_window (register_icon XModel.initial ⟨3, 30⟩) 30 =
          some ⟨3, 30⟩) ∧
      (find_icon_from_client (unregister_icon XModel.initial ⟨3, 30⟩) 3 = none ∧
        find_icon_from_icon_window (unregister_icon XModel.initial ⟨3, 30⟩) 30 =
          none) ∧
      icons_both_or_neither (runIconOps XModel.initial
        [IconOp.reg ⟨1, 10⟩, IconOp.unreg ⟨1, 10⟩, IconOp.reg ⟨2, 20⟩])) :=
  ⟨by decide,
    register_unregister_bidirectional ⟨3, 30⟩ XModel.initial
      [IconOp.reg ⟨1, 10⟩, IconOp.unreg ⟨1, 10⟩, IconOp.reg ⟨2, 20⟩] (by decide)⟩

/-! ## The dispatcher (x-events.cpp)

The dispatcher mutates the client registry (ClientModel), the XModel and
the X server through calls; here each handler is a pure function from the
event and the oracles it consults to the list of calls it issues, in order.
-/

/-- Desktops as ClientModel distinguishes them: a numbered user desktop, the
sticky all-desktops desktop, the icon pseudo-desktop and the two
move/resize pseudo-desktops. -/
inductive Desktop
  | userDesktop (n : Nat)
  | allDesktop
  | iconDesktop
  | movingDesktop
  | resizingDesktop
  deriving DecidableEq, Repr

def Desktop.is_icon_desktop : Desktop → Bool
  | Desktop.iconDesktop => true
  | _ => false

def Desktop.is_moving_desktop : Desktop → Bool
  | Desktop.movingDesktop => true
  | _ => false

def Desktop.is_resizing_desktop : Desktop → Bool
  | Desktop.resizingDesktop => true
  | _ => false

def Desktop.is_all_desktop : Desktop → Bool
  | Desktop.allDesktop => true
  | _ => false

/-- ClientPosScale: the placement mode of a client. -/
inductive ClientPosScale
  | CPS_FLOATING
  | CPS_MAX
  | CPS_SPLIT_TOP
  | CPS_SPLIT_BOTTOM
  | CPS_SPLIT_LEFT
  | CPS_SPLIT_RIGHT
  deriving DecidableEq, Repr

/-- Directions for snapping and screen migration. -/
inductive Direction
  | DIR_TOP
  | DIR_BOTTOM
  | DIR_LEFT
  | DIR_RIGHT
  deriving DecidableEq, Repr

/-- InitialState: whether a new client starts visible or iconified. -/
inductive InitialState
  | IS_VISIBLE
  | IS_HIDDEN
  deriving DecidableEq, Repr

/-- XWindowAttributes, the fields the dispatcher reads. -/
structure XWindowAttributes where
  x : Int
  y : Int
  width : Int
  height : Int
  override_redirect : Bool
  deriving DecidableEq, Repr

/-- A physical screen rectangle. -/
structure Box where
  x : Int
  y : Int
  width : Int
  height : Int
  deriving DecidableEq, Repr

/-- XWMHints, the fields the dispatcher reads. -/
structure XWMHints where
  flags : Nat
  initial_state : Nat
  deriving DecidableEq, Repr

/-- One call a handler issues against the client registry, the XModel or
the X server. -/
inductive ClientEffect
  | spawn (cmd : String)
  | deiconify (w : Window)
  | forceFocus (w : Window)
  | focus (w : Window)
  | startMoving (w : Window)
  | startResizing (w : Window)
  | stopMoving (w : Window) (pos : Int × Int)
  | stopResizing (w : Window) (size : Int × Int)
  | exitMoveResize
  | clientResetDesktop (w : Window)
  | addClient (w : Window) (st : InitialState) (pos : Int × Int)
      (size : Int × Int) (focus : Bool)
  | setLayer (w : Window) (layer : Nat)
  | toggleStick (w : Window)
  | changeMode (w : Window) (mode : ClientPosScale)
  | changeLocation (w : Window) (x y : Int)
  | moveWindow (w : Window) (x y : Int)
  | resizeWindow (w : Window) (width height : Int)
  | requestClose (w : Window)
  | destroyWin (w : Window)
  | exitWM
  | nextDesktop
  | prevDesktop
  | clientNextDesktop (w : Window)
  | clientPrevDesktop (w : Window)
  | iconify (w : Window)
  | toRelativeScreen (w : Window) (dir : Direction)
  | upLayer (w : Window)
  | downLayer (w : Window)
  deriving DecidableEq, Repr

/-- Modelled after common.h, which is not among the files under review: the
mouse buttons SmallWM grabs. Their exact values decide no property below. -/
def MOVE_BUTTON : Nat := 1

def LAUNCH_BUTTON : Nat := 2

def RESIZE_BUTTON : Nat := 3

/-- Modelled after common.h: the action modifier mask. -/
def ACTION_MASK : Nat := 64

/-- Modelled after common.h: the secondary-action modifier mask. -/
def SECONDARY_MASK : Nat := 1

/-- Xlib XWMHints flag: the initial_state field is meaningful. -/
def StateHint : Nat := 2

/-- Xlib initial state: start iconified. -/
def IconicState : Nat := 3

/-- Modelled after common.h: layer bounds and the fixed dialog layer. -/
def MIN_LAYER : Nat := 1

def MAX_LAYER : Nat := 9

def DIALOG_LAYER : Nat := 10

/-- The fields of an XButtonEvent the dispatcher reads. -/
structure ButtonEvent where
  window : Window
  subwindow : Window
  button : Nat
  state : Nat
  deriving DecidableEq, Repr

/-- XEvents::handle_buttonpress. The icon test of the source sits in its
second branch; because the first branch requires that no icon was found,
matching on the icon lookup first is the same dispatch. -/
def handle_buttonpress (isClient : Window → Bool) (m : XModel)
    (shell : String) (ev : ButtonEvent) : List ClientEffect :=
  let is_client : Bool := isClient ev.window || isClient ev.subwindow
  let icon : Option Icon := find_icon_from_icon_window m ev.window
  if !(is_client || icon.isSome) && ev.button == LAUNCH_BUTTON &&
      ev.state == ACTION_MASK then
    [ClientEffect.spawn ("exec " ++ shell)]
  else
    match icon with
    | some ic =>
        -- Any click on an icon deiconifies its client, whatever the modifier
        [ClientEffect.deiconify ic.client]
    | none =>
        if is_client && ev.state == ACTION_MASK then
          (if ev.button == MOVE_BUTTON then
            [ClientEffect.startMoving ev.subwindow] else []) ++
          (if ev.button == RESIZE_BUTTON then
            [ClientEffect.startResizing ev.subwindow] else [])
        else if is_client then
          [ClientEffect.forceFocus ev.window]
        else []

/-- Claim C3: a button press on a registered icon proxy window deiconifies
that icon client, for every modifier state and button; nothing is spawned,
no session is started and no focus is forced. -/
theorem buttonpress_on_icon_deiconifies (isClient : Window → Bool)
    (m : XModel) (shell : String) (ev : ButtonEvent) (ic : Icon)
    (h : find_icon_from_icon_window m ev.window = some ic) :
    handle_buttonpress isClient m shell ev = [ClientEffect.deiconify ic.client] := by
  simp [handle_buttonpress, h]

/-- A model holding one icon: client 1 behind icon window 10. -/
def oneIconModel : XModel := register_icon XModel.initial ⟨1, 10⟩

/-- Concrete run of claim C3: a press with the action modifier and the
launch button on the icon window 10 deiconifies client 1. -/
theorem buttonpress_on_icon_deiconifies_witness :
    find_icon_from_icon_window oneIconModel 10 = some ⟨1, 10⟩ ∧
    handle_buttonpress (fun _ => false) oneIconModel "xterm"
      ⟨10, 0, LAUNCH_BUTTON, ACTION_MASK⟩ = [ClientEffect.deiconify 1] :=
  ⟨rfl,
    buttonpress_on_icon_deiconifies (fun _ => false) oneIconModel "xterm"
      ⟨10, 0, LAUNCH_BUTTON, ACTION_MASK⟩ ⟨1, 10⟩ rfl⟩

/-- XEvents::handle_buttonrelease: bail unless the released window is the
current placeholder; otherwise read the placeholder attributes and commit
them through stop_moving or stop_resizing. -/
def handle_buttonrelease (m : XModel) (attrsOf : Window → XWindowAttributes)
    (ev : ButtonEvent) : List ClientEffect :=
  let expected_placeholder := get_move_resize_placeholder m
  if expected_placeholder ≠ ev.window then []
  else
    let state := get_move_resize_state m
    let client := get_move_resize_client m
    let attrs := attrsOf expected_placeholder
    match state with
    | MoveResizeState.MR_MOVE =>
        [ClientEffect.stopMoving client (attrs.x, attrs.y)]
    | MoveResizeState.MR_RESIZE =>
        [ClientEffect.stopResizing client (attrs.width, attrs.height)]
    | MoveResizeState.MR_INVALID => []

/-- The model state the button-release handler can change: the XModel
session together with each client position and size. -/
structure WMState where
  xmodel : XModel
  pos : Window → Int × Int
  size : Window → Int × Int

/-- Modelled from the spec: ClientModel::stop_moving / stop_resizing and the
ClientModelEvents reactor which runs them are not among the files under
review. Per the spec, committing a session repositions (move) or resizes
(resize) the real client to the given geometry and closes the session;
effects outside claim C5 legs are left inert here. -/
def applyEffect (s : WMState) : ClientEffect → WMState
  | ClientEffect.stopMoving w p =>
      { s with
        pos := fun q => if q = w then p else s.pos q
        xmodel := exit_move_resize s.xmodel }
  | ClientEffect.stopResizing w d =>
      { s with
        size := fun q => if q = w then d else s.size q
        xmodel := exit_move_resize s.xmodel }
  | ClientEffect.exitMoveResize =>
      { s with xmodel := exit_move_resize s.xmodel }
  | _ => s

/-- Run a list of effects left to right. -/
def applyEffects (s : WMState) : List ClientEffect → WMState
  | [] => s
  | e :: rest => applyEffects (applyEffect s e) rest

/-- Claim C5: a button release on anything but the current session
placeholder (in particular with no session at all) leaves the model
unchanged; a release on the placeholder commits the placeholder geometry to
the session client — its position for a move, its size for a resize — and
closes the session. -/
theorem buttonrelease_commits (m : XModel)
    (attrsOf : Window → XWindowAttributes) (ev : ButtonEvent)
    (pos size : Window → Int × Int) :
    (ev.window ≠ get_move_resize_placeholder m →
      applyEffects ⟨m, pos, size⟩ (handle_buttonrelease m attrsOf ev) =
        ⟨m, pos, size⟩) ∧
    (m.moveresize = none →
      applyEffects ⟨m, pos, size⟩ (handle_buttonrelease m attrsOf ev) =
        ⟨m, pos, size⟩) ∧
    (∀ mr, m.moveresize = some mr → ev.window = mr.placeholder →
      (mr.state = MoveResizeState.MR_MOVE →
        applyEffects ⟨m, pos, size⟩ (handle_buttonrelease m attrsOf ev) =
          ⟨{ m with moveresize := none },
            fun q => if q = mr.client then
              ((attrsOf mr.placeholder).x, (attrsOf mr.placeholder).y)
            else pos q,
            size⟩) ∧
      (mr.state = MoveResizeState.MR_RESIZE →
        applyEffects ⟨m, pos, size⟩ (handle_buttonrelease m attrsOf ev) =
          ⟨{ m with moveresize := none },
            pos,
            fun q => if q = mr.client then
              ((attrsOf mr.placeholder).width, (attrsOf mr.placeholder).height)
            else size q⟩)) := by
  refine ⟨?_, ?_, ?_⟩
  · intro hne
    rw [handle_buttonrelease]
    simp only [Ne.symm hne, ne_eq, not_false_eq_true, if_true]
    rfl
  · intro hnone
    rw [handle_buttonrelease]
    by_cases hw : get_move_resize_placeholder m ≠ ev.window
    · rw [if_pos hw]
      rfl
    · rw [if_neg hw]
      simp [get_move_resize_state, hnone, applyEffects]
  · intro mr hmr hev
    constructor
    · intro hst
      rw [handle_buttonrelease]
      simp only [get_move_resize_placeholder, get_move_resize_state,
        get_move_resize_client, hmr, hev, ne_eq, not_true_eq_false, if_false]
      rw [hst]
      simp only [applyEffects, applyEffect, exit_move_resize, hmr,
        Option.isSome_some, if_true]
    · intro hst
      rw [handle_buttonrelease]
      simp only [get_move_resize_placeholder, get_move_resize_state,
        get_move_resize_client, hmr, hev, ne_eq, not_true_eq_false, if_false]
      rw [hst]
      simp only [applyEffects, applyEffect, exit_move_resize, hmr,
        Option.isSome_some, if_true]

/-- XEvents::handle_motionnotify: nothing without a placeholder; a move
session repositions the placeholder by the pointer delta; a resize session
resizes it, zeroing any delta component that would drive the width or the
height to zero or below. -/
def handle_motionnotify (m : XModel) (attrsOf : Window → XWindowAttributes)
    (relative_change : Int × Int) : List ClientEffect :=
  let placeholder := get_move_resize_placeholder m
  if placeholder = NoneWin then []
  else
    let attr := attrsOf placeholder
    match get_move_resize_state m with
    | MoveResizeState.MR_MOVE =>
        [ClientEffect.moveWindow placeholder
          (attr.x + relative_change.1) (attr.y + relative_change.2)]
    | MoveResizeState.MR_RESIZE =>
        let dx := if attr.width + relative_change.1 ≤ 0 then 0
          else relative_change.1
        let dy := if attr.height + relative_change.2 ≤ 0 then 0
          else relative_change.2
        [ClientEffect.resizeWindow placeholder (attr.width + dx) (attr.height + dy)]
    | MoveResizeState.MR_INVALID => []

/-- Claim C6: while a resize session is active on a placeholder with
positive width and height, the motion handler always requests a resize to a
positive width and height: a delta that would make a dimension non-positive
is clamped to zero for that dimension. -/
theorem motion_resize_stays_positive (m : XModel)
    (attrsOf : Window → XWindowAttributes) (relative_change : Int × Int)
    (mr : MoveResize) (hmr : m.moveresize = some mr)
    (hst : mr.state = MoveResizeState.MR_RESIZE)
    (hph : mr.placeholder ≠ NoneWin)
    (hw : 0 < (attrsOf mr.placeholder).width)
    (hh : 0 < (attrsOf mr.placeholder).height) :
    ∃ w h, handle_motionnotify m attrsOf relative_change =
        [ClientEffect.resizeWindow mr.placeholder w h] ∧ 0 < w ∧ 0 < h := by
  rw [handle_motionnotify]
  simp only [get_move_resize_placeholder, get_move_resize_state, hmr, hst,
    hph, if_false]
  refine ⟨_, _, rfl, ?_, ?_⟩
  · by_cases hcl : (attrsOf mr.placeholder).width + relative_change.1 ≤ 0
    · simpa [hcl] using hw
    · simpa [hcl] using lt_of_not_le hcl
  · by_cases hcl : (attrsOf mr.placeholder).height + relative_change.2 ≤ 0
    · simpa [hcl] using hh
    · simpa [hcl] using lt_of_not_le hcl

/-- A model with a resize session active, client 7 on placeholder 99. -/
def resizeSessionModel : XModel :=
  { XModel.initial with
    moveresize := some ⟨7, 99, MoveResizeState.MR_RESIZE⟩ }

/-- Concrete run of claim C6: with the placeholder at 10 by 10 and a
pointer delta of (-20, 3), the requested size stays positive. -/
theorem motion_resize_stays_positive_witness :
    ∃ w h, handle_motionnotify resizeSessionModel
        (fun _ => ⟨0, 0, 10, 10, false⟩) (-20, 3) =
        [ClientEffect.resizeWindow 99 w h] ∧ 0 < w ∧ 0 < h :=
  motion_resize_stays_positive resizeSessionModel
    (fun _ => ⟨0, 0, 10, 10, false⟩) (-20, 3) ⟨7, 99, MoveResizeState.MR_RESIZE⟩
    rfl rfl (by decide) (by decide) (by decide)

/-- KeyboardAction: every named hotkey action. -/
inductive KeyboardAction
  | INVALID_ACTION
  | CLIENT_NEXT_DESKTOP
  | CLIENT_PREV_DESKTOP
  | NEXT_DESKTOP
  | PREV_DESKTOP
  | TOGGLE_STICK
  | ICONIFY
  | RUN
  | MAXIMIZE
  | REQUEST_CLOSE
  | FORCE_CLOSE
  | K_SNAP_TOP
  | K_SNAP_BOTTOM
  | K_SNAP_LEFT
  | K_SNAP_RIGHT
  | SCREEN_TOP
  | SCREEN_BOTTOM
  | SCREEN_LEFT
  | SCREEN_RIGHT
  | LAYER_ABOVE
  | LAYER_BELOW
  | LAYER_TOP
  | LAYER_BOTTOM
  | LAYER_1
  | LAYER_2
  | LAYER_3
  | LAYER_4
  | LAYER_5
  | LAYER_6
  | LAYER_7
  | LAYER_8
  | LAYER_9
  | CYCLE_FOCUS
  | CYCLE_FOCUS_BACK
  | EXIT_WM
  deriving DecidableEq, Repr

/-- The hotkey targeting mode from the configuration. -/
inductive HotkeyMode
  | HK_MOUSE
  | HK_FOCUS
  deriving DecidableEq, Repr

/-- The fields of an XKeyEvent the dispatcher reads. -/
structure KeyEvent where
  keycode : Nat
  state : Nat
  window : Window
  subwindow : Window
  deriving DecidableEq, Repr

/-- Everything handle_keypress consults: the targeting mode, the loaded
binding table, the keysym translation, the focus state and cycle, and the
registry membership test. The configured shell is deliberately absent: the
keypress path never reads it. -/
structure KeypressEnv where
  hotkey : HotkeyMode
  binding_to_action : Nat × Bool → KeyboardAction
  keysymOf : Nat → Nat
  focused : Window
  next_focused : Window
  prev_focused : Window
  isClient : Window → Bool

/-- The resolved keyboard action of an event under an environment. -/
def resolvedAction (env : KeypressEnv) (ev : KeyEvent) : KeyboardAction :=
  env.binding_to_action (env.keysymOf ev.keycode,
    decide (ev.state &&& SECONDARY_MASK ≠ 0))

/-- XEvents::handle_keypress: resolve the target client from the targeting
mode, resolve the action from the binding table, run the global actions
first, then the per-client actions when the target is a registered client. -/
def handle_keypress (env : KeypressEnv) (ev : KeyEvent) : List ClientEffect :=
  let client : Window :=
    match env.hotkey with
    | HotkeyMode.HK_MOUSE =>
        if ev.subwindow = NoneWin then ev.window else ev.subwindow
    | HotkeyMode.HK_FOCUS => env.focused
  match resolvedAction env ev with
  | KeyboardAction.RUN => [ClientEffect.spawn "exec /usr/bin/dmenu_run"]
  | KeyboardAction.CYCLE_FOCUS =>
      if env.next_focused ≠ NoneWin then [ClientEffect.focus env.next_focused]
      else []
  | KeyboardAction.CYCLE_FOCUS_BACK =>
      if env.prev_focused ≠ NoneWin then [ClientEffect.focus env.prev_focused]
      else []
  | KeyboardAction.EXIT_WM => [ClientEffect.exitWM]
  | KeyboardAction.NEXT_DESKTOP => [ClientEffect.nextDesktop]
  | KeyboardAction.PREV_DESKTOP => [ClientEffect.prevDesktop]
  | action =>
      if env.isClient client then
        match action with
        | KeyboardAction.CLIENT_NEXT_DESKTOP => [ClientEffect.clientNextDesktop client]
        | KeyboardAction.CLIENT_PREV_DESKTOP => [ClientEffect.clientPrevDesktop client]
        | KeyboardAction.TOGGLE_STICK => [ClientEffect.toggleStick client]
        | KeyboardAction.ICONIFY => [ClientEffect.iconify client]
        | KeyboardAction.MAXIMIZE => [ClientEffect.changeMode client ClientPosScale.CPS_MAX]
        | KeyboardAction.REQUEST_CLOSE => [ClientEffect.requestClose client]
        | KeyboardAction.FORCE_CLOSE => [ClientEffect.destroyWin client]
        | KeyboardAction.K_SNAP_TOP => [ClientEffect.changeMode client ClientPosScale.CPS_SPLIT_TOP]
        | KeyboardAction.K_SNAP_BOTTOM => [ClientEffect.changeMode client ClientPosScale.CPS_SPLIT_BOTTOM]
        | KeyboardAction.K_SNAP_LEFT => [ClientEffect.changeMode client ClientPosScale.CPS_SPLIT_LEFT]
        | KeyboardAction.K_SNAP_RIGHT => [ClientEffect.changeMode client ClientPosScale.CPS_SPLIT_RIGHT]
        | KeyboardAction.SCREEN_TOP => [ClientEffect.toRelativeScreen client Direction.DIR_TOP]
        | KeyboardAction.SCREEN_BOTTOM => [ClientEffect.toRelativeScreen client Direction.DIR_BOTTOM]
        | KeyboardAction.SCREEN_LEFT => [ClientEffect.toRelativeScreen client Direction.DIR_LEFT]
        | KeyboardAction.SCREEN_RIGHT => [ClientEffect.toRelativeScreen client Direction.DIR_RIGHT]
        | KeyboardAction.LAYER_ABOVE => [ClientEffect.upLayer client]
        | KeyboardAction.LAYER_BELOW => [ClientEffect.downLayer client]
        | KeyboardAction.LAYER_TOP => [ClientEffect.setLayer client MAX_LAYER]
        | KeyboardAction.LAYER_BOTTOM => [ClientEffect.setLayer client MIN_LAYER]
        | KeyboardAction.LAYER_1 => [ClientEffect.setLayer client 1]
        | KeyboardAction.LAYER_2 => [ClientEffect.setLayer client 2]
        | KeyboardAction.LAYER_3 => [ClientEffect.setLayer client 3]
        | KeyboardAction.LAYER_4 => [ClientEffect.setLayer client 4]
        | KeyboardAction.LAYER_5 => [ClientEffect.setLayer client 5]
        | KeyboardAction.LAYER_6 => [ClientEffect.setLayer client 6]
        | KeyboardAction.LAYER_7 => [ClientEffect.setLayer client 7]
        | KeyboardAction.LAYER_8 => [ClientEffect.setLayer client 8]
        | KeyboardAction.LAYER_9 => [ClientEffect.setLayer client 9]
        | _ => []
      else []

/-- Claim C10: a key press resolved to RUN always spawns the fixed command
line "exec /usr/bin/dmenu_run" — the keypress path spawns nothing else and
reads no configured shell — while the button-press launch path spawns
"exec " followed by the configured shell. -/
theorem run_spawns_fixed_dmenu :
    (∀ (env : KeypressEnv) (ev : KeyEvent),
      resolvedAction env ev = KeyboardAction.RUN →
      handle_keypress env ev = [ClientEffect.spawn "exec /usr/bin/dmenu_run"]) ∧
    (∀ (env : KeypressEnv) (ev : KeyEvent) (cmd : String),
      ClientEffect.spawn cmd ∈ handle_keypress env ev →
      cmd = "exec /usr/bin/dmenu_run") ∧
    (∀ (isClient : Window → Bool) (m : XModel) (shell : String)
      (ev : ButtonEvent),
      isClient ev.window = false → isClient ev.subwindow = false →
      find_icon_from_icon_window m ev.window = none →
      ev.button = LAUNCH_BUTTON → ev.state = ACTION_MASK →
      handle_buttonpress isClient m shell ev =
        [ClientEffect.spawn ("exec " ++ shell)]) := by
  refine ⟨?_, ?_, ?_⟩
  · intro env ev h
    rw [handle_keypress, h]
  · intro env ev cmd h
    rw [handle_keypress] at h
    rcases hact : resolvedAction env ev <;>
      rw [hact] at h <;>
      first
        | (simp only [List.mem_singleton, ClientEffect.spawn.injEq] at h
           exact h)
        | simp at h
  · intro isClient m shell ev h1 h2 hicon hb hs
    rw [handle_buttonpress]
    simp [h1, h2, hicon, hb, hs]

/-! ## add_window (map-notify reconciliation) -/

/-- Modelled after actions.h, which is not among the files under review:
the bit flags of a class-action rule. Their exact values decide no
property below. -/
def ACT_STICK : Nat := 1

def ACT_MAXIMIZE : Nat := 2

def ACT_SETLAYER : Nat := 4

def ACT_SNAP : Nat := 8

def ACT_MOVE_X : Nat := 16

def ACT_MOVE_Y : Nat := 32

/-- A class-keyed rule set from the configuration. The relative move
fractions are doubles in the source; they are carried here as rationals. -/
structure ClassActions where
  actions : Nat
  layer : Nat
  snap : Direction
  relative_x : Rat
  relative_y : Rat
  deriving DecidableEq, Repr

/-- C truncation of a rational to an integer (toward zero), as the
assignment of a double product to an integral Dimension performs. -/
def cTrunc (q : Rat) : Int :=
  if q.num < 0 then -(Int.ofNat (q.num.natAbs / q.den))
  else Int.ofNat (q.num.natAbs / q.den)

/-- Everything add_window consults: registry membership and desktop, the
XModel, window attributes, hints, class and transient queries, and the
configured exclusion list, class actions and screens. -/
structure AddWindowEnv where
  isClient : Window → Bool
  findDesktop : Window → Desktop
  xmodel : XModel
  attrsOf : Window → XWindowAttributes
  wmHints : Window → Bool × XWMHints
  getClass : Window → String
  no_autofocus : List String
  transientHint : Window → Window
  classactions : String → Option ClassActions
  getScreen : Window → Box

/-- The class-keyed rule block at the end of XEvents::add_window, for a
visible new client whose class has a rule set. The location guard is the
source guard verbatim: it compares win_attr.x against both computed
positions. -/
def classActionEffects (env : AddWindowEnv) (window : Window)
    (action : ClassActions) (win_attr : XWindowAttributes) :
    List ClientEffect :=
  (if action.actions &&& ACT_STICK ≠ 0 then
    [ClientEffect.toggleStick window] else []) ++
  (if action.actions &&& ACT_MAXIMIZE ≠ 0 then
    [ClientEffect.changeMode window ClientPosScale.CPS_MAX] else []) ++
  (if action.actions &&& ACT_SETLAYER ≠ 0 then
    [ClientEffect.setLayer window action.layer] else []) ++
  (if action.actions &&& ACT_SNAP ≠ 0 then
    [ClientEffect.changeMode window
      (match action.snap with
        | Direction.DIR_LEFT => ClientPosScale.CPS_SPLIT_LEFT
        | Direction.DIR_RIGHT => ClientPosScale.CPS_SPLIT_RIGHT
        | Direction.DIR_TOP => ClientPosScale.CPS_SPLIT_TOP
        | Direction.DIR_BOTTOM => ClientPosScale.CPS_SPLIT_BOTTOM)]
   else []) ++
  (if action.actions &&& ACT_MOVE_X ≠ 0 || action.actions &&& ACT_MOVE_Y ≠ 0 then
    let screen := env.getScreen window
    let win_x_pos : Int :=
      if action.actions &&& ACT_MOVE_X ≠ 0 then
        cTrunc ((screen.width : Rat) * action.relative_x)
      else win_attr.x
    let win_y_pos : Int :=
      if action.actions &&& ACT_MOVE_Y ≠ 0 then
        cTrunc ((screen.height : Rat) * action.relative_y)
      else win_attr.y
    ClientEffect.changeMode window ClientPosScale.CPS_FLOATING ::
      (if win_attr.x ≠ win_x_pos || win_attr.x ≠ win_y_pos then
        [ClientEffect.changeLocation window win_x_pos win_y_pos]
      else [])
   else [])

/-- XEvents::add_window: reconcile a mapped window. A known client is
deiconified or force-committed as its desktop demands and moved onto the
active desktop unless sticky; an unknown window is ignored when it opts out
via override_redirect, and otherwise registered, given the dialog layer
when transient, and run through the class-keyed rules when it starts
visible. -/
def add_window (env : AddWindowEnv) (window : Window) : List ClientEffect :=
  if env.isClient window then
    let mapped_desktop := env.findDesktop window
    (if mapped_desktop.is_icon_desktop then
      [ClientEffect.deiconify window] else []) ++
    (if mapped_desktop.is_moving_desktop || mapped_desktop.is_resizing_desktop then
      let placeholder := get_move_resize_placeholder env.xmodel
      let placeholder_attr := env.attrsOf placeholder
      ClientEffect.exitMoveResize ::
        (if mapped_desktop.is_moving_desktop then
          [ClientEffect.stopMoving window (placeholder_attr.x, placeholder_attr.y)]
        else if mapped_desktop.is_resizing_desktop then
          [ClientEffect.stopResizing window
            (placeholder_attr.width, placeholder_attr.height)]
        else [])
     else []) ++
    (if !mapped_desktop.is_all_desktop then
      [ClientEffect.clientResetDesktop window] else [])
  else
    let win_attr := env.attrsOf window
    if win_attr.override_redirect then []
    else
      let hintsResult := env.wmHints window
      let has_hints := hintsResult.1
      let hints := hintsResult.2
      let init_state :=
        if has_hints && decide (hints.flags &&& StateHint ≠ 0) &&
            decide (hints.initial_state = IconicState) then
          InitialState.IS_HIDDEN
        else InitialState.IS_VISIBLE
      let win_class := env.getClass window
      let should_focus := !(env.no_autofocus.contains win_class)
      ClientEffect.addClient window init_state (win_attr.x, win_attr.y)
          (win_attr.width, win_attr.height) should_focus ::
        ((if env.transientHint window ≠ NoneWin then
          [ClientEffect.setLayer window DIALOG_LAYER] else []) ++
        (match env.classactions win_class with
          | some action =>
              if init_state ≠ InitialState.IS_HIDDEN then
                classActionEffects env window action win_attr
              else []
          | none => []))

/-- Claim C4: mapping an already-known client leaves its desktop alone when
it sits on the sticky all-desktops desktop — the desktop-reset call is not
issued — and otherwise moves it onto the active desktop by issuing the
desktop-reset call. -/
theorem mapnotify_known_desktop_reset (env : AddWindowEnv) (window : Window)
    (h : env.isClient window = true) :
    ((env.findDesktop window).is_all_desktop = true →
      ClientEffect.clientResetDesktop window ∉ add_window env window) ∧
    ((env.findDesktop window).is_all_desktop = false →
      ClientEffect.clientResetDesktop window ∈ add_window env window) := by
  constructor
  · intro hall
    rw [add_window]
    rw [if_pos h]
    simp only [hall, Bool.not_true, Bool.false_eq_true, if_false,
      List.append_nil, List.mem_append]
    intro hmem
    rcases hmem with hmem | hmem
    · split at hmem <;> simp at hmem
    · split at hmem
      · simp only [List.mem_cons] at hmem
        rcases hmem with hmem | hmem
        · simp at hmem
        · split at hmem <;> simp at hmem
      · simp at hmem
  · intro hall
    rw [add_window]
    rw [if_pos h]
    simp [hall]

/-- A known sticky client for the C4 run. -/
def stickyClientEnv : AddWindowEnv :=
  { isClient := fun _ => true
    findDesktop := fun _ => Desktop.allDesktop
    xmodel := XModel.initial
    attrsOf := fun _ => ⟨0, 0, 100, 100, false⟩
    wmHints := fun _ => (false, ⟨0, 0⟩)
    getClass := fun _ => ""
    no_autofocus := []
    transientHint := fun _ => NoneWin
    classactions := fun _ => none
    getScreen := fun _ => ⟨0, 0, 800, 600⟩ }

/-- Concrete run of claim C4 on a known sticky client. -/
theorem mapnotify_known_desktop_reset_witness :
    stickyClientEnv.isClient 3 = true ∧
    (((stickyClientEnv.findDesktop 3).is_all_desktop = true →
      ClientEffect.clientResetDesktop 3 ∉ add_window stickyClientEnv 3) ∧
    ((stickyClientEnv.findDesktop 3).is_all_desktop = false →
      ClientEffect.clientResetDesktop 3 ∈ add_window stickyClientEnv 3)) :=
  ⟨rfl, mapnotify_known_desktop_reset stickyClientEnv 3 rfl⟩

/-- Claim C7: a map notification for an unknown window whose attributes
carry override_redirect is ignored: the handler issues no call at all, so
registry, icon tables, session and focus state are untouched and no
class-keyed rule runs. -/
theorem mapnotify_override_ignored (env : AddWindowEnv) (window : Window)
    (h1 : env.isClient window = false)
    (h2 : (env.attrsOf window).override_redirect = true) :
    add_window env window = [] := by
  rw [add_window]
  simp [h1, h2]

/-- An unknown override-redirect window for the C7 run. -/
def overrideEnv : AddWindowEnv :=
  { isClient := fun _ => false
    findDesktop := fun _ => Desktop.userDesktop 0
    xmodel := XModel.initial
    attrsOf := fun _ => ⟨0, 0, 100, 100, true⟩
    wmHints := fun _ => (false, ⟨0, 0⟩)
    getClass := fun _ => "Popup"
    no_autofocus := []
    transientHint := fun _ => NoneWin
    classactions := fun _ =>
      some ⟨ACT_STICK, 0, Direction.DIR_LEFT, 0, 0⟩
    getScreen := fun _ => ⟨0, 0, 800, 600⟩ }

/-- Concrete run of claim C7. -/
theorem mapnotify_override_ignored_witness :
    overrideEnv.isClient 9 = false ∧
    (overrideEnv.attrsOf 9).override_redirect = true ∧
    add_window overrideEnv 9 = [] :=
  ⟨rfl, rfl, mapnotify_override_ignored overrideEnv 9 rfl rfl⟩

/-- Claim C9: a new manageable window whose hints ask for an iconic initial
state is registered hidden and, beyond a possible dialog layer, nothing
else happens: none of the class-keyed rules run, even when a rule set
exists for its class. -/
theorem iconic_start_skips_class_actions (env : AddWindowEnv)
    (window : Window)
    (h1 : env.isClient window = false)
    (h2 : (env.attrsOf window).override_redirect = false)
    (h3 : (env.wmHints window).1 = true)
    (h4 : (env.wmHints window).2.flags &&& StateHint ≠ 0)
    (h5 : (env.wmHints window).2.initial_state = IconicState) :
    add_window env window =
      ClientEffect.addClient window InitialState.IS_HIDDEN
          ((env.attrsOf window).x, (env.attrsOf window).y)
          ((env.attrsOf window).width, (env.attrsOf window).height)
          (!(env.no_autofocus.contains (env.getClass window))) ::
        (if env.transientHint window ≠ NoneWin then
          [ClientEffect.setLayer window DIALOG_LAYER] else []) := by
  have hcond : ((env.wmHints window).1 &&
      decide ((env.wmHints window).2.flags &&& StateHint ≠ 0) &&
      decide ((env.wmHints window).2.initial_state = IconicState)) = true := by
    simp [h3, h4, h5]
  rw [add_window]
  rw [if_neg (by simp [h1])]
  simp only [h2, Bool.false_eq_true, if_false, hcond, if_true]
  cases hc : env.classactions (env.getClass window) with
  | none => simp
  | some action => simp

/-- An unknown window starting iconic, of a class which has a rule set,
for the C9 run. -/
def iconicStartEnv : AddWindowEnv :=
  { isClient := fun _ => false
    findDesktop := fun _ => Desktop.userDesktop 0
    xmodel := XModel.initial
    attrsOf := fun _ => ⟨20, 30, 400, 300, false⟩
    wmHints := fun _ => (true, ⟨StateHint, IconicState⟩)
    getClass := fun _ => "Editor"
    no_autofocus := []
    transientHint := fun _ => NoneWin
    classactions := fun _ =>
      some ⟨ACT_STICK + ACT_MAXIMIZE, 0, Direction.DIR_LEFT, 0, 0⟩
    getScreen := fun _ => ⟨0, 0, 800, 600⟩ }

/-- Concrete run of claim C9: the Editor class has a stick+maximize rule,
yet the iconic-start window is only registered hidden. -/
theorem iconic_start_skips_class_actions_witness :
    (iconicStartEnv.classactions "Editor").isSome = true ∧
    add_window iconicStartEnv 6 =
      ClientEffect.addClient 6 InitialState.IS_HIDDEN
          ((iconicStartEnv.attrsOf 6).x, (iconicStartEnv.attrsOf 6).y)
          ((iconicStartEnv.attrsOf 6).width, (iconicStartEnv.attrsOf 6).height)
          (!(iconicStartEnv.no_autofocus.contains (iconicStartEnv.getClass 6))) ::
        (if iconicStartEnv.transientHint 6 ≠ NoneWin then
          [ClientEffect.setLayer 6 DIALOG_LAYER] else []) :=
  ⟨rfl,
    iconic_start_skips_class_actions iconicStartEnv 6 rfl rfl rfl
      (by decide) rfl⟩

/-- A new visible window of a class whose rule moves it to half the screen
height: the window sits at x = 5, y = 7, the rule wants y = 5, and x
happens to equal the wanted y. -/
def moveRuleEnv : AddWindowEnv :=
  { isClient := fun _ => false
    findDesktop := fun _ => Desktop.userDesktop 0
    xmodel := XModel.initial
    attrsOf := fun _ => ⟨5, 7, 100, 100, false⟩
    wmHints := fun _ => (false, ⟨0, 0⟩)
    getClass := fun _ => "Term"
    no_autofocus := []
    transientHint := fun _ => NoneWin
    classactions := fun _ =>
      some ⟨ACT_MOVE_Y, 0, Direction.DIR_LEFT, 0, (1 : Rat) / 2⟩
    getScreen := fun _ => ⟨0, 0, 800, 10⟩ }

/-- Claim C8, the failing run: the rule asks for y = screen.height × 1/2 =
5 while the window sits at (5, 7); because the location guard of the source
compares win_attr.x — not win_attr.y — against the computed y position, no
changeLocation is issued and the window keeps y = 7 ≠ 5. -/
theorem relative_move_y_skipped :
    add_window moveRuleEnv 42 =
      [ClientEffect.addClient 42 InitialState.IS_VISIBLE (5, 7) (100, 100) true,
        ClientEffect.changeMode 42 ClientPosScale.CPS_FLOATING] ∧
    cTrunc ((((10 : Int) : Rat)) * ((1 : Rat) / 2)) = 5 ∧
    (7 : Int) ≠ 5 := by
  have hval : (((10 : Int) : Rat)) * ((1 : Rat) / 2) = (5 : Rat) := by norm_num
  have htr : cTrunc ((((10 : Int) : Rat)) * ((1 : Rat) / 2)) = 5 := by
    rw [hval, cTrunc]
    norm_num
  refine ⟨?_, htr, by decide⟩
  rw [add_window]
  rw [if_neg (by simp [moveRuleEnv])]
  simp only [moveRuleEnv, classActionEffects, htr]
  norm_num [ACT_STICK, ACT_MAXIMIZE, ACT_SETLAYER, ACT_SNAP, ACT_MOVE_X,
    ACT_MOVE_Y, StateHint, IconicState, NoneWin]
  decide

end SmallWM
